import Mathlib

set_option linter.unreachableTactic false
set_option linter.unusedTactic false

/-!
Verification development for the bot decision loop of rusty-shooter.

The Rust sources (`src/bot.rs`, `src/character.rs`) are shallowly embedded
below.  `f32`/`f64` scalars are modelled as exact rationals (`ℚ`): every
operation the verified properties depend on (addition, subtraction,
comparison, absolute value, squared distances) is a comparison or a
ring operation, for which ℚ is a faithful model of the finite floats.
External collaborators (scene graph, physics, navmesh, animation playback)
are modelled as per-tick oracle inputs (`TickEnv`), exactly at the
granularity at which `Bot::update` consumes them.
-/

/-- Exact value of `std::f32::MAX` = (2 - 2⁻²³) · 2¹²⁷, used by the source as
the initial `closest_distance` in the nearest-candidate scans. -/
def F32_MAX : ℚ := 2 ^ 128 - 2 ^ 104

/-- Three-component vector (`rg3d::core::math::vec3::Vec3`), with exact
rational coordinates. -/
structure V3 where
  x : ℚ
  y : ℚ
  z : ℚ
deriving DecidableEq

def V3.zero : V3 := ⟨0, 0, 0⟩

def V3.sub (a b : V3) : V3 := ⟨a.x - b.x, a.y - b.y, a.z - b.z⟩

instance : Sub V3 := ⟨V3.sub⟩

/-- Squared length of a vector (`Vec3::sqr_len`). -/
def V3.sqrLen (v : V3) : ℚ := v.x * v.x + v.y * v.y + v.z * v.z

/-- Squared distance between two points (`Vec3::sqr_distance`). -/
def V3.sqr_distance (a b : V3) : ℚ := (a.sub b).sqrLen

/-- `Vec3::normalized` returns `None` exactly when the vector has zero
length; over ℚ, zero length is equivalent to being the zero vector.  The
returned direction (division by the length, an irrational operation) is
kept unscaled: no verified property below depends on the scaling, only on
whether normalization succeeds. -/
def V3.normalizedOpt (v : V3) : Option V3 :=
  if v = V3.zero then none else some v

/-- Current target of a bot (`bot.rs`, `struct Target`): a world-position
snapshot plus the opposing actor's handle. -/
structure Target where
  position : V3
  handle : Nat
deriving DecidableEq

/-- Candidate opponent descriptor handed to `Bot::select_target`
(`actor.rs`, `TargetDescriptor`): actor handle plus world position. -/
structure TargetDescriptor where
  handle : Nat
  position : V3
deriving DecidableEq

/-- Ray-cast hit record kind (`rg3d::physics::HitKind`): either static
level geometry or a rigid body identified by its handle. -/
inductive HitKind where
  | staticTriangle
  | body (handle : Nat)
deriving DecidableEq

/-- Pickup item as seen by `Bot::select_point_of_interest`: whether it has
already been picked up, and its world position (`item.rs`). -/
structure Item where
  is_picked_up : Bool
  position : V3
deriving DecidableEq

/-- Per-clip playback state of the hit-reaction animation, at the
granularity `Bot::update` observes it: its time position and whether
playback has ended (`Animation::has_ended`). -/
structure Clip where
  time_position : ℚ
  has_ended : Bool
deriving DecidableEq

/-- `Animation::rewind`: playback returns to the start of the clip. -/
def Clip.rewind (_ : Clip) : Clip := ⟨0, false⟩

/-- Fixed-timestep clock handed to `Bot::update` (`GameTime` in `main.rs`):
total elapsed seconds and the tick's delta. -/
structure GameTime where
  elapsed : ℚ
  delta : ℚ
deriving DecidableEq

/-- Outbound gameplay messages emitted by the bot core (`message.rs`),
restricted to the payload fields the bot code fills in. -/
inductive Msg where
  | showWeapon (weapon : Nat) (state : Bool)
  | shootWeapon (weapon : Nat) (direction : V3)
  | damageActor (actor : Nat) (amount : ℚ)
  | playSound (position : V3)
deriving DecidableEq

/-- Base character record (`character.rs`, `struct Character`), restricted
to the fields the bot decision loop reads or writes.  Scene/physics
handles (pivot, body, weapon_pivot), the name, the team and the messaging
endpoint carry no verified behaviour of their own and are kept external. -/
structure Character where
  health : ℚ
  armor : ℚ
  weapons : List Nat
  current_weapon : Nat
deriving DecidableEq

def Character.default : Character :=
  { health := 100, armor := 100, weapons := [], current_weapon := 0 }

/-- `Character::is_dead`: `self.health <= 0.0`. -/
def Character.is_dead (c : Character) : Bool := decide (c.health ≤ 0)

/-- `Character::damage`:
```
let amount = amount.abs();
if self.armor > 0.0 {
    self.armor -= amount;
    if self.armor < 0.0 { self.health += self.armor; }
} else {
    self.health -= amount;
}
``` -/
def Character.damage (c : Character) (amount : ℚ) : Character :=
  let amount := |amount|
  if 0 < c.armor then
    let armor := c.armor - amount
    if armor < 0 then { c with armor := armor, health := c.health + armor }
    else { c with armor := armor }
  else
    { c with health := c.health - amount }

/-- `Character::heal`: add the absolute amount, clamped to 150. -/
def Character.heal (c : Character) (amount : ℚ) : Character :=
  let health := c.health + |amount|
  if 150 < health then { c with health := 150 } else { c with health := health }

/-- `Character::set_current_weapon`: when the index is in bounds, hide the
previously current weapon, switch the index, and show the new one (the
visibility requests are outbound `ShowWeapon` messages; a bot's messaging
endpoint is always present). -/
def Character.set_current_weapon (c : Character) (i : Nat) : Character × List Msg :=
  if i < c.weapons.length then
    let hideMsgs := match c.weapons.get? c.current_weapon with
      | some w => [Msg.showWeapon w false]
      | none => []
    let c2 : Character := { c with current_weapon := i }
    let showMsgs := match c2.weapons.get? c2.current_weapon with
      | some w => [Msg.showWeapon w true]
      | none => []
    (c2, hideMsgs ++ showMsgs)
  else (c, [])

/-- Bot species (`bot.rs`, `enum BotKind`). -/
inductive BotKind where
  | Mutant
  | Parasite
  | Maw
deriving DecidableEq

/-- `BotKind::from_id`: decode a serialized kind identifier, failing on
anything other than 0, 1, 2 (the Rust `match` over `i32`). -/
def BotKind.from_id (id : Int) : Except String BotKind :=
  if id = 0 then Except.ok BotKind.Mutant
  else if id = 1 then Except.ok BotKind.Parasite
  else if id = 2 then Except.ok BotKind.Maw
  else Except.error ("Invalid bot kind " ++ toString id)

/-- `BotKind::id`: the serialized identifier of a kind. -/
def BotKind.id : BotKind → Int
  | BotKind.Mutant => 0
  | BotKind.Parasite => 1
  | BotKind.Maw => 2

/-- State of a blend state machine at the granularity
`LocomotionMachine::is_walking` observes it: the active state handle, the
optional in-flight transition handle, and the destination-state lookup for
transitions (`Machine::active_state`, `Machine::active_transition`,
`Transition::dest`). -/
structure MachineObs where
  activeState : Nat
  activeTransition : Option Nat
  transitionDest : Nat → Nat

/-- Locomotion machine, restricted to what the footstep gating reads: the
machine observation plus the handle of the Walk state (`bot.rs`,
`struct LocomotionMachine`). -/
structure LocomotionMachine where
  machine : MachineObs
  walkState : Nat

/-- `LocomotionMachine::is_walking`: the active state is Walk, or a
transition is in flight whose destination is Walk. -/
def LocomotionMachine.is_walking (l : LocomotionMachine) : Bool :=
  decide (l.machine.activeState = l.walkState) ||
    (match l.machine.activeTransition with
     | some t => decide (l.machine.transitionDest t = l.walkState)
     | none => false)

/-- `LocomotionMachine::STEP_SIGNAL` (two footstep markers at 0.4 and 0.8
of the walk cycle carry this id). -/
def LocomotionMachine.STEP_SIGNAL : Nat := 1

/-- `CombatMachine::HIT_SIGNAL` (one melee-impact marker at 0.9 of the
whip swing carries this id). -/
def CombatMachine.HIT_SIGNAL : Nat := 1

/-- Perception oracle for `Bot::select_target`: the frustum containment
test (`Frustum::is_contains_point` on the bot's cached view frustum) and
the line-of-sight ray cast.  `rayHits p = none` models "no ray could be
built from the two points, or `ray_cast` returned no hits"; `some hits`
is the sorted hit list returned by `Physics::ray_cast`. -/
structure SelectEnv where
  frustumContains : V3 → Bool
  rayHits : V3 → Option (List HitKind)

/-- Navmesh oracle for one `Bot::rebuild_path` call:
`query_closest_from` is `navmesh.query_closest(position - (0,1,0))`,
`query_closest_poi` is `navmesh.query_closest(self.point_of_interest)`,
and `build_path i j` is `navmesh.build_path(i, j, &mut self.path)`
(`some waypoints` on `Ok`, `none` on `Err`; on `Err` the out-parameter
path is left as it was). -/
structure NavEnv where
  query_closest_from : Option Nat
  query_closest_poi : Option Nat
  build_path : Nat → Nat → Option (List V3)

/-- Everything one `Bot::update` tick reads from the world: clock, the
body's position and ground contact from physics, candidate opponents,
perception oracle, live items, per-weapon ammo lookup, optional navmesh,
the animation-signal events drained this tick from the whip and walk
clips, the locomotion machine observation at drain time, and whether the
combat machine's active state is Aim (`Bot::can_shoot`). -/
structure TickEnv where
  time : GameTime
  position : V3
  has_ground_contact : Bool
  targets : List TargetDescriptor
  select : SelectEnv
  items : List Item
  ammo : Nat → Nat
  navmesh : Option NavEnv
  whip_events : List Nat
  step_events : List Nat
  locomotion : LocomotionMachine
  combat_active_is_aim : Bool

/-- Mutable bot state (`bot.rs`, `struct Bot`), restricted to the fields
the decision loop reads or writes.  Scene handles, the cached frustum
(recomputed from float matrices each tick — modelled through
`SelectEnv.frustumContains`) and the smoothed yaw/pitch angles
(trigonometric, consumed only by scene-graph rotations) stay external. -/
structure BotState where
  character : Character
  target : Option Target
  path : List V3
  move_target : V3
  current_path_point : Nat
  last_poi_update_time : ℚ
  point_of_interest : V3
  last_path_rebuild_time : ℚ
  last_move_dir : V3
  restoration_time : ℚ
  last_health : ℚ
  hit_reaction : Clip
deriving DecidableEq

/-- `Bot::default`. -/
def Bot.defaultState : BotState :=
  { character := Character.default
    target := none
    path := []
    move_target := V3.zero
    current_path_point := 0
    last_poi_update_time := -10
    point_of_interest := V3.zero
    last_path_rebuild_time := -10
    last_move_dir := V3.zero
    restoration_time := 0
    last_health := 0
    hit_reaction := ⟨0, false⟩ }

/-- `Bot::new`: the definition's health is installed on the character and
mirrored into `last_health`; every planning field keeps its
`Default::default()` value. -/
def Bot.spawnState (health : ℚ) : BotState :=
  { Bot.defaultState with
    character := { Character.default with health := health }
    last_health := health }

/-- Result of one tick: the new bot state, the outbound messages in
emission order, and the number of `navmesh.query_closest` calls made. -/
structure TickResult where
  state : BotState
  msgs : List Msg
  navQueries : Nat
deriving DecidableEq

/-- Inner hit loop of `Bot::select_target` (`'hit_loop`): scanning the
sorted ray hits, a static triangle rejects the candidate
(`continue 'target_loop`); a body hit never does — the bot's own body is
skipped with `continue 'hit_loop`, and the match arm for any other body
falls through to the next iteration without rejecting. -/
def Bot.hitLoop (selfBody : Nat) : List HitKind → Bool
  | [] => false
  | HitKind.staticTriangle :: _ => true
  | HitKind.body h :: rest =>
    if selfBody = h then Bot.hitLoop selfBody rest
    else Bot.hitLoop selfBody rest

/-- Whether the ray-cast block of `Bot::select_target` rejects a
candidate: only when hits exist and the hit loop finds a static triangle. -/
def Bot.losRejected (selfBody : Nat) (hits : Option (List HitKind)) : Bool :=
  match hits with
  | some hs => Bot.hitLoop selfBody hs
  | none => false

/-- Main loop of `Bot::select_target` (`'target_loop`), carrying the best
candidate so far and the running `closest_distance`. -/
def Bot.selectTargetLoop (selfHandle selfBody : Nat) (position : V3) (env : SelectEnv) :
    List TargetDescriptor → Option Target → ℚ → Option Target
  | [], best, _ => best
  | desc :: rest, best, closest =>
    if desc.handle ≠ selfHandle ∧ env.frustumContains desc.position = true then
      if Bot.losRejected selfBody (env.rayHits desc.position) = true then
        Bot.selectTargetLoop selfHandle selfBody position env rest best closest
      else
        let sqr_d := V3.sqr_distance position desc.position
        if sqr_d < closest then
          Bot.selectTargetLoop selfHandle selfBody position env rest
            (some ⟨desc.position, desc.handle⟩) sqr_d
        else
          Bot.selectTargetLoop selfHandle selfBody position env rest best closest
    else
      Bot.selectTargetLoop selfHandle selfBody position env rest best closest

/-- `Bot::select_target`: the target is cleared, then the candidate loop
runs with `closest_distance = std::f32::MAX`. -/
def Bot.select_target (selfHandle selfBody : Nat) (position : V3) (env : SelectEnv)
    (targets : List TargetDescriptor) : Option Target :=
  Bot.selectTargetLoop selfHandle selfBody position env targets none F32_MAX

/-- A candidate that survives every rejection test of
`Bot::select_target`: not the bot itself, inside the view frustum, and
not rejected by the ray-cast block. -/
def Bot.eligibleTarget (selfHandle selfBody : Nat) (env : SelectEnv)
    (desc : TargetDescriptor) : Prop :=
  desc.handle ≠ selfHandle ∧ env.frustumContains desc.position = true ∧
    Bot.losRejected selfBody (env.rayHits desc.position) = false

instance (selfHandle selfBody : Nat) (env : SelectEnv) (desc : TargetDescriptor) :
    Decidable (Bot.eligibleTarget selfHandle selfBody env desc) := by
  unfold Bot.eligibleTarget
  infer_instance

/-- `Bot::select_weapon`: when the current weapon handle is valid and that
weapon's ammo is 0, switch to the first weapon in the inventory with ammo
(`for (i, handle) ... if ammo > 0 { set_current_weapon(i); break }`). -/
def Bot.select_weapon (c : Character) (ammo : Nat → Nat) : Character × List Msg :=
  match c.weapons.get? c.current_weapon with
  | some w =>
    if ammo w = 0 then
      match c.weapons.findIdx? (fun h => decide (0 < ammo h)) with
      | some i => Character.set_current_weapon c i
      | none => (c, [])
    else (c, [])
  | none => (c, [])

/-- Nearest-unpicked-item scan of `Bot::select_point_of_interest`,
carrying the running point of interest and `closest_distance`. -/
def Bot.poiScan : List Item → V3 → V3 → ℚ → V3
  | [], _, poi, _ => poi
  | it :: rest, selfPos, poi, closest =>
    if it.is_picked_up = true then Bot.poiScan rest selfPos poi closest
    else
      let sqr_d := V3.sqr_distance it.position selfPos
      if sqr_d < closest then Bot.poiScan rest selfPos it.position sqr_d
      else Bot.poiScan rest selfPos poi closest

/-- `Bot::select_point_of_interest`: rate-limited to at least 1.25 s since
the last reselection; when eligible, scans for the closest non-picked-up
item (starting from `std::f32::MAX`) and stamps the reselection time. -/
def Bot.select_point_of_interest (s : BotState) (items : List Item) (selfPosition : V3)
    (elapsed : ℚ) : BotState :=
  if 1.25 ≤ elapsed - s.last_poi_update_time then
    { s with
      point_of_interest := Bot.poiScan items selfPosition s.point_of_interest F32_MAX
      last_poi_update_time := elapsed }
  else s

/-- Path-following step of `Bot::update` (lines 1103–1110): when the
cursor's waypoint exists, it becomes `move_target`; the cursor advances by
one exactly when that waypoint is reached (`distance ≤ 2.0`, i.e. squared
distance ≤ 4) and is not the last one (`current_path_point < len - 1`). -/
def Bot.path_follow (s : BotState) (position : V3) : BotState :=
  match s.path.get? s.current_path_point with
  | none => s
  | some pathPoint =>
    let s1 := { s with move_target := pathPoint }
    if V3.sqr_distance s1.move_target position ≤ 4 ∧
        s1.current_path_point < s1.path.length - 1 then
      { s1 with current_path_point := s1.current_path_point + 1 }
    else s1

/-- Close-combat flag and look direction of `Bot::update` (lines
1092–1099): with no target, look toward the point of interest; with a
target, look toward it and flag close combat when it is within the fixed
threshold (`d.len() ≤ 2.0`, i.e. squared length ≤ 4). -/
def Bot.inCloseCombatLookDir (target : Option Target) (poi position : V3) : Bool × V3 :=
  match target with
  | none => (false, poi - position)
  | some t =>
    let d := t.position - position
    (decide (V3.sqrLen d ≤ 4), d)

/-- Aiming-and-movement block of `Bot::update` (lines 1114–1136), guarded
by `look_dir.normalized()`.  The smoothed yaw/pitch updates and the
physics-body velocity writes are external; the only bot-state write is
`last_move_dir`, set to the normalized move direction when grounded and
not in close combat. -/
def Bot.movementPhase (s : BotState) (position : V3) (hasGround inCloseCombat : Bool)
    (lookDir : V3) : BotState :=
  match V3.normalizedOpt lookDir with
  | none => s
  | some _ =>
    if inCloseCombat = true then s
    else if hasGround = true then
      match V3.normalizedOpt (s.move_target.sub position) with
      | some moveDir => { s with last_move_dir := moveDir }
      | none => s
    else s

/-- Damage-reaction block of `Bot::update` (lines 1142–1152): when health
dropped since the previous tick, rewind the hit-reaction clip if it had
ended, and set the aim-lock cooldown (`restoration_time`) to 0.8. -/
def Bot.damageReact (s : BotState) : BotState :=
  if s.character.health < s.last_health then
    { s with
      hit_reaction := if s.hit_reaction.has_ended = true then s.hit_reaction.rewind
                      else s.hit_reaction
      restoration_time := 0.8 }
  else s

/-- `can_aim` (line 1153): `self.restoration_time <= 0.0`. -/
def Bot.canAimQ (restoration : ℚ) : Bool := decide (restoration ≤ 0)

/-- Ranged-shot block of `Bot::update` (lines 1173–1187): not in close
combat, aim unlocked, combat machine in Aim, a target exists, and the
current weapon index is valid. -/
def Bot.shootMsgs (inCloseCombat canAim canShoot : Bool) (target : Option Target)
    (weapons : List Nat) (current : Nat) (lookDir : V3) : List Msg :=
  if inCloseCombat = false ∧ canAim = true ∧ canShoot = true ∧ target.isSome = true then
    match weapons.get? current with
    | some w => [Msg.shootWeapon w lookDir]
    | none => []
  else []

/-- Melee drain of `Bot::update` (lines 1189–1207): with a target present,
every drained whip event whose signal is `HIT_SIGNAL`, while in close
combat, emits a 20-damage message against the target. -/
def Bot.whipDrain (target : Option Target) (inCloseCombat : Bool) (events : List Nat) :
    List Msg :=
  match target with
  | none => []
  | some t =>
    events.filterMap fun sid =>
      if sid = CombatMachine.HIT_SIGNAL ∧ inCloseCombat = true then
        some (Msg.damageActor t.handle 20)
      else none

/-- Footstep drain of `Bot::update` (lines 1209–1231): only while
`is_walking`, every drained walk event whose signal is `STEP_SIGNAL`,
while grounded, emits a footstep sound at the bot's position (the random
choice among the footstep sound assets is external). -/
def Bot.stepDrain (loco : LocomotionMachine) (hasGround : Bool) (position : V3)
    (events : List Nat) : List Msg :=
  if loco.is_walking = true then
    events.filterMap fun sid =>
      if sid = LocomotionMachine.STEP_SIGNAL ∧ hasGround = true then
        some (Msg.playSound position)
      else none
  else []

/-- `Bot::rebuild_path`: resolve the navmesh point under the bot's feet,
then the one at the point of interest; once both resolve, reset the
follow cursor to 0 and ask for a path; on success install it reversed and
stamp the rebuild time.  The second component counts the
`query_closest` calls made. -/
def Bot.rebuild_path (s : BotState) (nav : NavEnv) (elapsed : ℚ) : BotState × Nat :=
  match nav.query_closest_from with
  | none => (s, 1)
  | some fromIdx =>
    match nav.query_closest_poi with
    | none => (s, 2)
    | some toIdx =>
      let s1 := { s with current_path_point := 0 }
      match nav.build_path fromIdx toIdx with
      | some waypoints =>
        ({ s1 with path := waypoints.reverse, last_path_rebuild_time := elapsed }, 2)
      | none => (s1, 2)

/-- Path-replan gate of `Bot::update` (lines 1233–1237): rebuild only when
at least 1.0 s passed since the last successful rebuild and a navmesh is
available. -/
def Bot.rebuildGate (s : BotState) (navmesh : Option NavEnv) (elapsed : ℚ) :
    BotState × Nat :=
  if 1 ≤ elapsed - s.last_path_rebuild_time then
    match navmesh with
    | some nav => Bot.rebuild_path s nav elapsed
    | none => (s, 0)
  else (s, 0)

/-- The live branch of `Bot::update` (the `else` of `is_dead`), phase by
phase in source order.  Scene-only effects (frustum recomputation, smooth
yaw/pitch rotation, jump impulse and velocity writes on the physics body,
pose evaluation of the three machines) mutate no modelled bot state and
are noted in the phase definitions they belong to. -/
def Bot.updateAlive (selfHandle selfBody : Nat) (s : BotState) (env : TickEnv) :
    TickResult :=
  let s1 := { s with
    target := Bot.select_target selfHandle selfBody env.position env.select env.targets }
  let w := Bot.select_weapon s1.character env.ammo
  let s2 := { s1 with character := w.1 }
  let s3 := Bot.select_point_of_interest s2 env.items env.position env.time.elapsed
  let cl := Bot.inCloseCombatLookDir s3.target s3.point_of_interest env.position
  let s4 := Bot.path_follow s3 env.position
  let s5 := Bot.movementPhase s4 env.position env.has_ground_contact cl.1 cl.2
  let s6 := Bot.damageReact s5
  let canAim := Bot.canAimQ s6.restoration_time
  let s7 := { s6 with last_health := s6.character.health }
  let shoot := Bot.shootMsgs cl.1 canAim env.combat_active_is_aim s7.target
    s7.character.weapons s7.character.current_weapon cl.2
  let melee := Bot.whipDrain s7.target cl.1 env.whip_events
  let steps := Bot.stepDrain env.locomotion env.has_ground_contact env.position
    env.step_events
  let rb := Bot.rebuildGate s7 env.navmesh env.time.elapsed
  let s8 := { rb.1 with restoration_time := rb.1.restoration_time - env.time.delta }
  ⟨s8, w.2 ++ shoot ++ melee ++ steps, rb.2⟩

/-- `Bot::update` (lines 1076–1240): when the character is dead, only the
dying machine is driven (a scene-side pose evaluation) — no bot-state
field changes, no message is sent and no navmesh query is made; otherwise
the full live update runs. -/
def Bot.update (selfHandle selfBody : Nat) (s : BotState) (env : TickEnv) : TickResult :=
  if s.character.is_dead = true then ⟨s, [], 0⟩
  else Bot.updateAlive selfHandle selfBody s env

/-- `Bot::on_actor_removed`: drop the target when its actor was removed. -/
def Bot.onActorRemoved (target : Option Target) (h : Nat) : Option Target :=
  match target with
  | some t => if t.handle = h then none else some t
  | none => none

/-- Bot states reachable through the mutating entry points of `bot.rs`:
`Bot::default`, `Bot::new`, `Bot::update`, `Bot::set_point_of_interest`
and `Bot::on_actor_removed` (loading a save also leaves the planning
fields at their defaults, as `Bot::visit` does not touch them). -/
inductive Bot.Reach : BotState → Prop where
  | dflt : Bot.Reach Bot.defaultState
  | spawn (health : ℚ) : Bot.Reach (Bot.spawnState health)
  | tick (selfHandle selfBody : Nat) (env : TickEnv) {s : BotState} :
      Bot.Reach s → Bot.Reach (Bot.update selfHandle selfBody s env).state
  | setPoi (p : V3) (t : ℚ) {s : BotState} :
      Bot.Reach s → Bot.Reach { s with point_of_interest := p, last_poi_update_time := t }
  | removeActor (h : Nat) {s : BotState} :
      Bot.Reach s → Bot.Reach { s with target := Bot.onActorRemoved s.target h }

/-- Path-cursor invariant: the planned path is empty, or the follow cursor
points at a valid waypoint index. -/
def Bot.pathInv (s : BotState) : Prop :=
  s.path = [] ∨ s.current_path_point < s.path.length

/-! Frame lemmas: which `BotState` fields each tick phase leaves unchanged. -/

theorem Bot.poi_character (s : BotState) (items : List Item) (p : V3) (e : ℚ) :
    (Bot.select_point_of_interest s items p e).character = s.character := by
  unfold Bot.select_point_of_interest; split <;> rfl

theorem Bot.poi_target (s : BotState) (items : List Item) (p : V3) (e : ℚ) :
    (Bot.select_point_of_interest s items p e).target = s.target := by
  unfold Bot.select_point_of_interest; split <;> rfl

theorem Bot.poi_path (s : BotState) (items : List Item) (p : V3) (e : ℚ) :
    (Bot.select_point_of_interest s items p e).path = s.path := by
  unfold Bot.select_point_of_interest; split <;> rfl

theorem Bot.poi_cursor (s : BotState) (items : List Item) (p : V3) (e : ℚ) :
    (Bot.select_point_of_interest s items p e).current_path_point = s.current_path_point := by
  unfold Bot.select_point_of_interest; split <;> rfl

theorem Bot.poi_rebuild_time (s : BotState) (items : List Item) (p : V3) (e : ℚ) :
    (Bot.select_point_of_interest s items p e).last_path_rebuild_time =
      s.last_path_rebuild_time := by
  unfold Bot.select_point_of_interest; split <;> rfl

theorem Bot.poi_restoration (s : BotState) (items : List Item) (p : V3) (e : ℚ) :
    (Bot.select_point_of_interest s items p e).restoration_time = s.restoration_time := by
  unfold Bot.select_point_of_interest; split <;> rfl

theorem Bot.poi_last_health (s : BotState) (items : List Item) (p : V3) (e : ℚ) :
    (Bot.select_point_of_interest s items p e).last_health = s.last_health := by
  unfold Bot.select_point_of_interest; split <;> rfl

theorem Bot.follow_character (s : BotState) (p : V3) :
    (Bot.path_follow s p).character = s.character := by
  unfold Bot.path_follow
  repeat' first | split | dsimp only
  all_goals rfl

theorem Bot.follow_target (s : BotState) (p : V3) :
    (Bot.path_follow s p).target = s.target := by
  unfold Bot.path_follow
  repeat' first | split | dsimp only
  all_goals rfl

theorem Bot.follow_path (s : BotState) (p : V3) :
    (Bot.path_follow s p).path = s.path := by
  unfold Bot.path_follow
  repeat' first | split | dsimp only
  all_goals rfl

theorem Bot.follow_poi (s : BotState) (p : V3) :
    (Bot.path_follow s p).point_of_interest = s.point_of_interest := by
  unfold Bot.path_follow
  repeat' first | split | dsimp only
  all_goals rfl

theorem Bot.follow_rebuild_time (s : BotState) (p : V3) :
    (Bot.path_follow s p).last_path_rebuild_time = s.last_path_rebuild_time := by
  unfold Bot.path_follow
  repeat' first | split | dsimp only
  all_goals rfl

theorem Bot.follow_restoration (s : BotState) (p : V3) :
    (Bot.path_follow s p).restoration_time = s.restoration_time := by
  unfold Bot.path_follow
  repeat' first | split | dsimp only
  all_goals rfl

theorem Bot.follow_last_health (s : BotState) (p : V3) :
    (Bot.path_follow s p).last_health = s.last_health := by
  unfold Bot.path_follow
  repeat' first | split | dsimp only
  all_goals rfl

theorem Bot.move_character (s : BotState) (p : V3) (g c : Bool) (d : V3) :
    (Bot.movementPhase s p g c d).character = s.character := by
  unfold Bot.movementPhase
  repeat' first | split | dsimp only
  all_goals rfl

theorem Bot.move_target_eq (s : BotState) (p : V3) (g c : Bool) (d : V3) :
    (Bot.movementPhase s p g c d).target = s.target := by
  unfold Bot.movementPhase
  repeat' first | split | dsimp only
  all_goals rfl

theorem Bot.move_path (s : BotState) (p : V3) (g c : Bool) (d : V3) :
    (Bot.movementPhase s p g c d).path = s.path := by
  unfold Bot.movementPhase
  repeat' first | split | dsimp only
  all_goals rfl

theorem Bot.move_cursor (s : BotState) (p : V3) (g c : Bool) (d : V3) :
    (Bot.movementPhase s p g c d).current_path_point = s.current_path_point := by
  unfold Bot.movementPhase
  repeat' first | split | dsimp only
  all_goals rfl

theorem Bot.move_poi (s : BotState) (p : V3) (g c : Bool) (d : V3) :
    (Bot.movementPhase s p g c d).point_of_interest = s.point_of_interest := by
  unfold Bot.movementPhase
  repeat' first | split | dsimp only
  all_goals rfl

theorem Bot.move_rebuild_time (s : BotState) (p : V3) (g c : Bool) (d : V3) :
    (Bot.movementPhase s p g c d).last_path_rebuild_time = s.last_path_rebuild_time := by
  unfold Bot.movementPhase
  repeat' first | split | dsimp only
  all_goals rfl

theorem Bot.move_restoration (s : BotState) (p : V3) (g c : Bool) (d : V3) :
    (Bot.movementPhase s p g c d).restoration_time = s.restoration_time := by
  unfold Bot.movementPhase
  repeat' first | split | dsimp only
  all_goals rfl

theorem Bot.move_last_health (s : BotState) (p : V3) (g c : Bool) (d : V3) :
    (Bot.movementPhase s p g c d).last_health = s.last_health := by
  unfold Bot.movementPhase
  repeat' first | split | dsimp only
  all_goals rfl

theorem Bot.react_character (s : BotState) : (Bot.damageReact s).character = s.character := by
  unfold Bot.damageReact; split <;> rfl

theorem Bot.react_target (s : BotState) : (Bot.damageReact s).target = s.target := by
  unfold Bot.damageReact; split <;> rfl

theorem Bot.react_path (s : BotState) : (Bot.damageReact s).path = s.path := by
  unfold Bot.damageReact; split <;> rfl

theorem Bot.react_cursor (s : BotState) :
    (Bot.damageReact s).current_path_point = s.current_path_point := by
  unfold Bot.damageReact; split <;> rfl

theorem Bot.react_poi (s : BotState) :
    (Bot.damageReact s).point_of_interest = s.point_of_interest := by
  unfold Bot.damageReact; split <;> rfl

theorem Bot.react_rebuild_time (s : BotState) :
    (Bot.damageReact s).last_path_rebuild_time = s.last_path_rebuild_time := by
  unfold Bot.damageReact; split <;> rfl

theorem Bot.react_last_health (s : BotState) :
    (Bot.damageReact s).last_health = s.last_health := by
  unfold Bot.damageReact; split <;> rfl

theorem Bot.rebuild_target (s : BotState) (nav : NavEnv) (e : ℚ) :
    (Bot.rebuild_path s nav e).1.target = s.target := by
  unfold Bot.rebuild_path
  repeat' first | split | dsimp only
  all_goals rfl

theorem Bot.rebuild_poi (s : BotState) (nav : NavEnv) (e : ℚ) :
    (Bot.rebuild_path s nav e).1.point_of_interest = s.point_of_interest := by
  unfold Bot.rebuild_path
  repeat' first | split | dsimp only
  all_goals rfl

theorem Bot.rebuild_restoration (s : BotState) (nav : NavEnv) (e : ℚ) :
    (Bot.rebuild_path s nav e).1.restoration_time = s.restoration_time := by
  unfold Bot.rebuild_path
  repeat' first | split | dsimp only
  all_goals rfl

theorem Bot.gate_target (s : BotState) (nm : Option NavEnv) (e : ℚ) :
    (Bot.rebuildGate s nm e).1.target = s.target := by
  unfold Bot.rebuildGate
  repeat' first | split | dsimp only
  all_goals first | rfl | exact Bot.rebuild_target ..

theorem Bot.gate_poi (s : BotState) (nm : Option NavEnv) (e : ℚ) :
    (Bot.rebuildGate s nm e).1.point_of_interest = s.point_of_interest := by
  unfold Bot.rebuildGate
  repeat' first | split | dsimp only
  all_goals first | rfl | exact Bot.rebuild_poi ..

theorem Bot.gate_restoration (s : BotState) (nm : Option NavEnv) (e : ℚ) :
    (Bot.rebuildGate s nm e).1.restoration_time = s.restoration_time := by
  unfold Bot.rebuildGate
  repeat' first | split | dsimp only
  all_goals first | rfl | exact Bot.rebuild_restoration ..

theorem Character.set_weapon_health (c : Character) (i : Nat) :
    (Character.set_current_weapon c i).1.health = c.health := by
  unfold Character.set_current_weapon
  repeat' first | split | dsimp only
  all_goals rfl

theorem Bot.select_weapon_health (c : Character) (ammo : Nat → Nat) :
    (Bot.select_weapon c ammo).1.health = c.health := by
  unfold Bot.select_weapon
  repeat' first | split | dsimp only
  all_goals first | rfl | exact Character.set_weapon_health ..

/-! Properties of `Bot::select_target`. -/

theorem Bot.hitLoop_eq_false_iff (sb : Nat) (hs : List HitKind) :
    Bot.hitLoop sb hs = false ↔ HitKind.staticTriangle ∉ hs := by
  induction hs with
  | nil => simp [Bot.hitLoop]
  | cons h rest ih => cases h <;> simp [Bot.hitLoop, ih]

theorem Bot.selectTargetLoop_le (sh sb : Nat) (pos : V3) (env : SelectEnv) :
    ∀ (ts : List TargetDescriptor) (best : Option Target) (closest : ℚ),
      (∀ b, best = some b → V3.sqr_distance pos b.position ≤ closest) →
      ∀ t, Bot.selectTargetLoop sh sb pos env ts best closest = some t →
        V3.sqr_distance pos t.position ≤ closest := by
  intro ts
  induction ts with
  | nil =>
    intro best closest hb t ht
    exact hb t ht
  | cons d rest ih =>
    intro best closest hb t ht
    unfold Bot.selectTargetLoop at ht
    dsimp only at ht
    split_ifs at ht with hcond hrej hlt
    · exact ih best closest hb t ht
    · have h1 := ih (some ⟨d.position, d.handle⟩) (V3.sqr_distance pos d.position) ?_ t ht
      · exact le_trans h1 (le_of_lt hlt)
      · intro b hb'
        cases hb'
        exact le_refl _
    · exact ih best closest hb t ht
    · exact ih best closest hb t ht

theorem Bot.selectTargetLoop_min (sh sb : Nat) (pos : V3) (env : SelectEnv) :
    ∀ (ts : List TargetDescriptor) (best : Option Target) (closest : ℚ),
      (∀ b, best = some b → V3.sqr_distance pos b.position ≤ closest) →
      ∀ t, Bot.selectTargetLoop sh sb pos env ts best closest = some t →
        ∀ d ∈ ts, Bot.eligibleTarget sh sb env d →
          V3.sqr_distance pos t.position ≤ V3.sqr_distance pos d.position := by
  intro ts
  induction ts with
  | nil =>
    intro best closest _ t _ d hd
    exact absurd hd (List.not_mem_nil d)
  | cons d0 rest ih =>
    intro best closest hb t ht d hd hel
    unfold Bot.selectTargetLoop at ht
    dsimp only at ht
    rcases List.mem_cons.mp hd with rfl | hdrest
    · split_ifs at ht with hcond hrej hlt
      · exact absurd hrej (by simp [hel.2.2])
      · exact Bot.selectTargetLoop_le sh sb pos env rest
          (some ⟨d.position, d.handle⟩) (V3.sqr_distance pos d.position)
          (by intro b hb'; cases hb'; exact le_refl _) t ht
      · have h1 := Bot.selectTargetLoop_le sh sb pos env rest best closest hb t ht
        exact le_trans h1 (le_of_not_lt hlt)
      · exact absurd ⟨hel.1, hel.2.1⟩ hcond
    · split_ifs at ht with hcond hrej hlt
      · exact ih best closest hb t ht d hdrest hel
      · exact ih (some ⟨d0.position, d0.handle⟩) (V3.sqr_distance pos d0.position)
          (by intro b hb'; cases hb'; exact le_refl _) t ht d hdrest hel
      · exact ih best closest hb t ht d hdrest hel
      · exact ih best closest hb t ht d hdrest hel

theorem Bot.selectTargetLoop_mem (sh sb : Nat) (pos : V3) (env : SelectEnv) :
    ∀ (ts : List TargetDescriptor) (best : Option Target) (closest : ℚ) (t : Target),
      Bot.selectTargetLoop sh sb pos env ts best closest = some t →
        best = some t ∨ ∃ d ∈ ts, Bot.eligibleTarget sh sb env d ∧
          t = ⟨d.position, d.handle⟩ := by
  intro ts
  induction ts with
  | nil =>
    intro best closest t ht
    exact Or.inl ht
  | cons d0 rest ih =>
    intro best closest t ht
    unfold Bot.selectTargetLoop at ht
    dsimp only at ht
    split_ifs at ht with hcond hrej hlt
    · rcases ih best closest t ht with h | ⟨d, hd, hel, rfl⟩
      · exact Or.inl h
      · exact Or.inr ⟨d, List.mem_cons_of_mem d0 hd, hel, rfl⟩
    · rcases ih (some ⟨d0.position, d0.handle⟩) (V3.sqr_distance pos d0.position) t ht with
        h | ⟨d, hd, hel, rfl⟩
      · cases h
        exact Or.inr ⟨d0, List.mem_cons_self d0 rest,
          ⟨hcond.1, hcond.2, Bool.not_eq_true _ ▸ eq_false_of_ne_true hrej⟩, rfl⟩
      · exact Or.inr ⟨d, List.mem_cons_of_mem d0 hd, hel, rfl⟩
    · rcases ih best closest t ht with h | ⟨d, hd, hel, rfl⟩
      · exact Or.inl h
      · exact Or.inr ⟨d, List.mem_cons_of_mem d0 hd, hel, rfl⟩
    · rcases ih best closest t ht with h | ⟨d, hd, hel, rfl⟩
      · exact Or.inl h
      · exact Or.inr ⟨d, List.mem_cons_of_mem d0 hd, hel, rfl⟩

/-- Perception oracle used by the C2 witness: everything inside the
frustum, no line-of-sight hits. -/
def envClearSight : SelectEnv := ⟨fun _ => true, fun _ => none⟩

/-- Perception oracle used by the C2 counterexample: everything inside
the frustum, every line-of-sight ray hitting body 99. -/
def envBodyBlocked : SelectEnv := ⟨fun _ => true, fun _ => some [HitKind.body 99]⟩

/-- C2 (amended): `Bot::select_target` rejects the bot itself, rejects
candidates outside the view frustum, and rejects candidates whose
line-of-sight ray hits static geometry; ray hits on bodies (own or
foreign) never reject a candidate; among the surviving candidates the
nearest one by squared distance is selected. -/
theorem bot_select_target_spec (selfHandle selfBody : Nat) (position : V3)
    (env : SelectEnv) (targets : List TargetDescriptor) (t : Target)
    (h : Bot.select_target selfHandle selfBody position env targets = some t) :
    (∃ d ∈ targets, Bot.eligibleTarget selfHandle selfBody env d ∧
        t = ⟨d.position, d.handle⟩ ∧ t.handle ≠ selfHandle ∧
        env.frustumContains t.position = true ∧
        ∀ hs, env.rayHits t.position = some hs → HitKind.staticTriangle ∉ hs) ∧
    (∀ d ∈ targets, Bot.eligibleTarget selfHandle selfBody env d →
        V3.sqr_distance position t.position ≤ V3.sqr_distance position d.position) := by
  constructor
  · rcases Bot.selectTargetLoop_mem selfHandle selfBody position env targets none F32_MAX t h
      with hn | ⟨d, hd, hel, rfl⟩
    · exact absurd hn (by simp)
    · refine ⟨d, hd, hel, rfl, hel.1, hel.2.1, ?_⟩
      intro hs hhs
      have hlr := hel.2.2
      unfold Bot.losRejected at hlr
      rw [hhs] at hlr
      exact (Bot.hitLoop_eq_false_iff selfBody hs).mp hlr
  · exact Bot.selectTargetLoop_min selfHandle selfBody position env targets none F32_MAX
      (by intro b hb; cases hb) t h

/-- C2 counterexample to the claim as stated: the single candidate's
line-of-sight ray is blocked by body 99, which is not the bot's own body
(10), yet the candidate is selected — `HitKind::Body` hits never reject a
candidate in `Bot::select_target`. -/
theorem bot_select_target_counterexample :
    Bot.select_target 0 10 V3.zero envBodyBlocked
        [⟨1, ⟨1, 0, 0⟩⟩] = some ⟨⟨1, 0, 0⟩, 1⟩ ∧ (99 : Nat) ≠ 10 := by
  constructor
  · simp [Bot.select_target, Bot.selectTargetLoop, Bot.losRejected, Bot.hitLoop,
      envBodyBlocked, V3.sqr_distance, V3.sqrLen, V3.sub, F32_MAX, V3.zero]
    try norm_num
  · decide

/-- Witness for `bot_select_target_spec`: of two unobstructed visible
candidates the nearer one (handle 2) is selected, and the theorem's
minimality conclusion holds at the farther one (handle 1). -/
theorem bot_select_target_spec_witness :
    Bot.select_target 0 10 V3.zero envClearSight
        [⟨1, ⟨3, 0, 0⟩⟩, ⟨2, ⟨1, 0, 0⟩⟩] = some ⟨⟨1, 0, 0⟩, 2⟩ ∧
    V3.sqr_distance V3.zero (⟨1, 0, 0⟩ : V3) ≤ V3.sqr_distance V3.zero ⟨3, 0, 0⟩ := by
  have hsel : Bot.select_target 0 10 V3.zero envClearSight
      [⟨1, ⟨3, 0, 0⟩⟩, ⟨2, ⟨1, 0, 0⟩⟩] = some ⟨⟨1, 0, 0⟩, 2⟩ := by
    simp [Bot.select_target, Bot.selectTargetLoop, Bot.losRejected, Bot.hitLoop,
      envClearSight, V3.sqr_distance, V3.sqrLen, V3.sub, F32_MAX, V3.zero]
    try norm_num
  refine ⟨hsel, ?_⟩
  exact (bot_select_target_spec 0 10 V3.zero envClearSight
      [⟨1, ⟨3, 0, 0⟩⟩, ⟨2, ⟨1, 0, 0⟩⟩] ⟨⟨1, 0, 0⟩, 2⟩ hsel).2
    ⟨1, ⟨3, 0, 0⟩⟩ (by simp) (by
      refine ⟨by decide, rfl, ?_⟩
      simp [envClearSight, Bot.losRejected])

/-- C9: loading a serialized bot kind accepts exactly the identifiers 0,
1, 2 (with `id` as the inverse of `from_id`), and every other identifier
is a hard error reported to the caller — never a silent default. -/
theorem botkind_from_id_spec :
    (∀ id : Int,
      (∀ k, BotKind.from_id id = Except.ok k →
        (id = 0 ∨ id = 1 ∨ id = 2) ∧ BotKind.id k = id) ∧
      (id ≠ 0 → id ≠ 1 → id ≠ 2 →
        BotKind.from_id id = Except.error ("Invalid bot kind " ++ toString id))) ∧
    (∀ k : BotKind, BotKind.from_id (BotKind.id k) = Except.ok k) := by
  constructor
  · intro id
    constructor
    · intro k hk
      unfold BotKind.from_id at hk
      split_ifs at hk with h0 h1 h2
      · cases hk; simp [BotKind.id, h0]
      · cases hk; simp [BotKind.id, h1]
      · cases hk; simp [BotKind.id, h2]
    · intro h0 h1 h2
      simp [BotKind.from_id, h0, h1, h2]
  · intro k
    cases k <;> rfl

/-- Witness for `botkind_from_id_spec`: identifier 7 is rejected with the
error message, and identifier 1 decodes to `Parasite`. -/
theorem botkind_from_id_spec_witness :
    BotKind.from_id 7 = Except.error ("Invalid bot kind " ++ toString (7 : Int)) ∧
    BotKind.from_id 1 = Except.ok BotKind.Parasite :=
  ⟨(botkind_from_id_spec.1 7).2 (by decide) (by decide) (by decide),
   botkind_from_id_spec.2 BotKind.Parasite⟩

/-- C10: `Character::damage` never increases health or armor for any
amount (zero and negative included); the absolute value of the amount is
applied; while armor is positive it is depleted first, and only the
excess beyond the remaining armor is subtracted from health. -/
theorem character_damage_spec (c : Character) (amount : ℚ) :
    (Character.damage c amount).health ≤ c.health ∧
    (Character.damage c amount).armor ≤ c.armor ∧
    Character.damage c amount = Character.damage c |amount| ∧
    (0 < c.armor → (Character.damage c amount).armor = c.armor - |amount|) ∧
    (0 < c.armor → c.armor < |amount| →
      (Character.damage c amount).health = c.health - (|amount| - c.armor)) ∧
    (0 < c.armor → |amount| ≤ c.armor → (Character.damage c amount).health = c.health) ∧
    (¬ 0 < c.armor → (Character.damage c amount).health = c.health - |amount|) := by
  have habs : (0 : ℚ) ≤ |amount| := abs_nonneg amount
  refine ⟨?_, ?_, ?_, ?_, ?_, ?_, ?_⟩
  · unfold Character.damage
    dsimp only
    split_ifs with h1 h2 <;> (try dsimp only) <;> linarith
  · unfold Character.damage
    dsimp only
    split_ifs with h1 h2 <;> (try dsimp only) <;> linarith
  · unfold Character.damage
    rw [abs_abs]
  · intro h1
    unfold Character.damage
    dsimp only
    rw [if_pos h1]
    split_ifs with h2 <;> rfl
  · intro h1 hlt
    unfold Character.damage
    dsimp only
    rw [if_pos h1, if_pos (by linarith : c.armor - |amount| < 0)]
    dsimp only
    ring
  · intro h1 hle
    unfold Character.damage
    dsimp only
    rw [if_pos h1, if_neg (by linarith : ¬ c.armor - |amount| < 0)]
  · intro h1
    unfold Character.damage
    dsimp only
    rw [if_neg h1]

/-- Witness for `character_damage_spec`: a character with 80 health and
50 armor taking −60 damage loses all armor and the 10-point excess from
health. -/
theorem character_damage_spec_witness :
    (0 : ℚ) < 50 ∧ (50 : ℚ) < |(-60 : ℚ)| ∧
    (Character.damage ⟨80, 50, [], 0⟩ (-60)).health = 80 - (|(-60 : ℚ)| - 50) :=
  ⟨by norm_num, by norm_num, by
    have h := (character_damage_spec ⟨80, 50, [], 0⟩ (-60)).2.2.2.2.1
      (by norm_num) (by norm_num)
    simpa using h⟩

/-! Conditional lemmas for the damage-reaction and path-replan phases. -/

theorem Bot.react_no_damage (s : BotState) (h : ¬ s.character.health < s.last_health) :
    Bot.damageReact s = s := by
  unfold Bot.damageReact
  rw [if_neg h]

theorem Bot.react_damaged (s : BotState) (h : s.character.health < s.last_health) :
    (Bot.damageReact s).restoration_time = 0.8 ∧
    (s.hit_reaction.has_ended = true → (Bot.damageReact s).hit_reaction = ⟨0, false⟩) ∧
    (s.hit_reaction.has_ended = false → (Bot.damageReact s).hit_reaction = s.hit_reaction) := by
  unfold Bot.damageReact
  rw [if_pos h]
  refine ⟨rfl, ?_, ?_⟩ <;> intro hh <;> simp [hh, Clip.rewind]

theorem Bot.rebuild_queries (s : BotState) (nav : NavEnv) (e : ℚ) :
    1 ≤ (Bot.rebuild_path s nav e).2 := by
  unfold Bot.rebuild_path
  repeat' first | split | dsimp only
  all_goals omega

theorem Bot.gate_suppressed (s : BotState) (nm : Option NavEnv) (e : ℚ)
    (h : ¬ 1 ≤ e - s.last_path_rebuild_time) :
    Bot.rebuildGate s nm e = (s, 0) := by
  unfold Bot.rebuildGate
  rw [if_neg h]

theorem Bot.gate_fires (s : BotState) (nav : NavEnv) (e : ℚ)
    (h : 1 ≤ e - s.last_path_rebuild_time) :
    Bot.rebuildGate s (some nav) e = Bot.rebuild_path s nav e := by
  unfold Bot.rebuildGate
  rw [if_pos h]

/-- Tick oracle with nothing in the world: used to instantiate theorems at
concrete inputs. -/
def envTrivial : TickEnv :=
  { time := ⟨0, 0⟩
    position := V3.zero
    has_ground_contact := false
    targets := []
    select := ⟨fun _ => false, fun _ => none⟩
    items := []
    ammo := fun _ => 0
    navmesh := none
    whip_events := []
    step_events := []
    locomotion := ⟨⟨0, none, fun _ => 0⟩, 1⟩
    combat_active_is_aim := false }

/-- A freshly spawned bot at zero health. -/
def deadBotState : BotState :=
  { Bot.defaultState with character := { Character.default with health := 0 } }

/-- C1: per tick, exactly one of the dying-machine-only update and the
full update runs, and the choice is determined solely by whether the
character's health is ≤ 0 (`Character::is_dead`). -/
theorem bot_update_branches (selfHandle selfBody : Nat) (s : BotState) (env : TickEnv) :
    (s.character.is_dead = true ↔ s.character.health ≤ 0) ∧
    (s.character.health ≤ 0 → Bot.update selfHandle selfBody s env = ⟨s, [], 0⟩) ∧
    (¬ s.character.health ≤ 0 →
      Bot.update selfHandle selfBody s env = Bot.updateAlive selfHandle selfBody s env) := by
  refine ⟨by simp [Character.is_dead], ?_, ?_⟩
  · intro h
    simp [Bot.update, Character.is_dead, h]
  · intro h
    simp [Bot.update, Character.is_dead, h]

/-- Witness for `bot_update_branches`: a bot at health 0 takes the
dying-only branch, the default bot at health 100 takes the full branch. -/
theorem bot_update_branches_witness :
    Bot.update 3 4 deadBotState envTrivial = ⟨deadBotState, [], 0⟩ ∧
    Bot.update 3 4 Bot.defaultState envTrivial =
      Bot.updateAlive 3 4 Bot.defaultState envTrivial :=
  ⟨(bot_update_branches 3 4 deadBotState envTrivial).2.1 (by decide),
   (bot_update_branches 3 4 Bot.defaultState envTrivial).2.2 (by decide)⟩

/-- C7: a point of interest reselected at elapsed time `t` is not touched
again before `t + 1.25` — whatever items exist in the meantime — and once
at least 1.25 s have passed a reselection happens (the timestamp is
updated and the nearest-unpicked-item scan runs). -/
theorem bot_poi_rate_limit (s : BotState) (items : List Item) (selfPos : V3)
    (t elapsed : ℚ) (hlast : s.last_poi_update_time = t) :
    (elapsed < t + 1.25 → Bot.select_point_of_interest s items selfPos elapsed = s) ∧
    (t + 1.25 ≤ elapsed →
      (Bot.select_point_of_interest s items selfPos elapsed).last_poi_update_time = elapsed ∧
      (Bot.select_point_of_interest s items selfPos elapsed).point_of_interest =
        Bot.poiScan items selfPos s.point_of_interest F32_MAX) := by
  subst hlast
  constructor
  · intro h
    unfold Bot.select_point_of_interest
    rw [if_neg (by linarith)]
  · intro h
    unfold Bot.select_point_of_interest
    rw [if_pos (by linarith)]
    exact ⟨rfl, rfl⟩

/-- Bot whose point of interest was last reselected at elapsed time 0. -/
def poiBotState : BotState :=
  { Bot.defaultState with last_poi_update_time := 0, point_of_interest := ⟨5, 0, 0⟩ }

/-- Witness for `bot_poi_rate_limit`: with the last reselection at time 0,
a closer item appearing at elapsed 0.5 changes nothing, and at elapsed 1.3
the reselection happens. -/
theorem bot_poi_rate_limit_witness :
    ((0.5 : ℚ) < 0 + 1.25 ∧
      Bot.select_point_of_interest poiBotState [⟨false, ⟨1, 0, 0⟩⟩] V3.zero 0.5 =
        poiBotState) ∧
    ((0 : ℚ) + 1.25 ≤ 1.3 ∧
      (Bot.select_point_of_interest poiBotState [⟨false, ⟨1, 0, 0⟩⟩] V3.zero 1.3
        ).last_poi_update_time = 1.3) :=
  ⟨⟨by norm_num,
    (bot_poi_rate_limit poiBotState [⟨false, ⟨1, 0, 0⟩⟩] V3.zero 0 0.5 rfl).1
      (by norm_num)⟩,
   ⟨by norm_num,
    ((bot_poi_rate_limit poiBotState [⟨false, ⟨1, 0, 0⟩⟩] V3.zero 0 1.3 rfl).2
      (by norm_num)).1⟩⟩

/-- C8: path rebuilds are rate-limited to ≥ 1.0 s apart — a tick earlier
than `last_path_rebuild_time + 1` makes no navmesh query and leaves the
rebuild timestamp and the path untouched; a tick at or past that bound
with a navmesh available performs at least one `query_closest`; and a
successful `rebuild_path` stamps the rebuild time with the tick's elapsed
time. -/
theorem bot_path_rebuild_rate_limit (sh sb : Nat) (s : BotState) (env : TickEnv) :
    (env.time.elapsed < s.last_path_rebuild_time + 1 →
      (Bot.updateAlive sh sb s env).navQueries = 0 ∧
      (Bot.updateAlive sh sb s env).state.last_path_rebuild_time =
        s.last_path_rebuild_time ∧
      (Bot.updateAlive sh sb s env).state.path = s.path) ∧
    (s.last_path_rebuild_time + 1 ≤ env.time.elapsed →
      ∀ nav, env.navmesh = some nav → 1 ≤ (Bot.updateAlive sh sb s env).navQueries) ∧
    (∀ nav i j wps, nav.query_closest_from = some i → nav.query_closest_poi = some j →
      nav.build_path i j = some wps →
      (Bot.rebuild_path s nav env.time.elapsed).1.last_path_rebuild_time =
        env.time.elapsed) := by
  refine ⟨?_, ?_, ?_⟩
  · intro h
    unfold Bot.updateAlive
    dsimp only
    rw [Bot.gate_suppressed]
    · refine ⟨rfl, ?_, ?_⟩
      · simp only [Bot.react_rebuild_time, Bot.move_rebuild_time, Bot.follow_rebuild_time,
          Bot.poi_rebuild_time]
      · simp only [Bot.react_path, Bot.move_path, Bot.follow_path, Bot.poi_path]
    · simp only [Bot.react_rebuild_time, Bot.move_rebuild_time, Bot.follow_rebuild_time,
        Bot.poi_rebuild_time]
      intro hc
      linarith
  · intro h nav hnav
    unfold Bot.updateAlive
    dsimp only
    rw [hnav, Bot.gate_fires]
    · exact Bot.rebuild_queries _ nav env.time.elapsed
    · simp only [Bot.react_rebuild_time, Bot.move_rebuild_time, Bot.follow_rebuild_time,
        Bot.poi_rebuild_time]
      linarith
  · intro nav i j wps h1 h2 h3
    simp [Bot.rebuild_path, h1, h2, h3]

/-- Navmesh oracle whose queries and path builds always succeed. -/
def navAlways : NavEnv := ⟨some 0, some 0, fun _ _ => some []⟩

/-- Bot whose last successful path rebuild happened at elapsed time 2. -/
def rebuildTimedState : BotState := { Bot.defaultState with last_path_rebuild_time := 2 }

/-- Tick oracle at elapsed time `e` with a navmesh available. -/
def envNav (e : ℚ) : TickEnv := { envTrivial with time := ⟨e, 0⟩, navmesh := some navAlways }

/-- Witness for `bot_path_rebuild_rate_limit`: with the last rebuild at
elapsed 2.0, the tick at 2.5 makes no navmesh query while the tick at 3.1
makes at least one. -/
theorem bot_path_rebuild_rate_limit_witness :
    ((2.5 : ℚ) < 2 + 1 ∧ (Bot.updateAlive 0 0 rebuildTimedState (envNav 2.5)).navQueries = 0) ∧
    ((2 : ℚ) + 1 ≤ 3.1 ∧ 1 ≤ (Bot.updateAlive 0 0 rebuildTimedState (envNav 3.1)).navQueries) :=
  ⟨⟨by norm_num,
    ((bot_path_rebuild_rate_limit 0 0 rebuildTimedState (envNav 2.5)).1
      (by norm_num [envNav, envTrivial, rebuildTimedState, Bot.defaultState])).1⟩,
   ⟨by norm_num,
    (bot_path_rebuild_rate_limit 0 0 rebuildTimedState (envNav 3.1)).2.1
      (by norm_num [envNav, envTrivial, rebuildTimedState, Bot.defaultState])
      navAlways rfl⟩⟩

/-- C6 (amended): a failed navmesh point resolution leaves the whole bot
state unchanged for that tick; a failed path-build query leaves the path
and the rebuild timestamp unchanged (so the replan is retried on the next
eligible cycle, the gate being `elapsed − last_path_rebuild_time ≥ 1`)
but resets the path-follow cursor to 0, because `Bot::rebuild_path`
resets the cursor before issuing the build query.  All failures are
non-fatal. -/
theorem bot_rebuild_path_failure (s : BotState) (nav : NavEnv) (e : ℚ) :
    (nav.query_closest_from = none → Bot.rebuild_path s nav e = (s, 1)) ∧
    (∀ i, nav.query_closest_from = some i → nav.query_closest_poi = none →
      Bot.rebuild_path s nav e = (s, 2)) ∧
    (∀ i j, nav.query_closest_from = some i → nav.query_closest_poi = some j →
      nav.build_path i j = none →
      (Bot.rebuild_path s nav e).1.path = s.path ∧
      (Bot.rebuild_path s nav e).1.last_path_rebuild_time = s.last_path_rebuild_time ∧
      (Bot.rebuild_path s nav e).1.current_path_point = 0) := by
  refine ⟨?_, ?_, ?_⟩
  · intro h
    simp [Bot.rebuild_path, h]
  · intro i h1 h2
    simp [Bot.rebuild_path, h1, h2]
  · intro i j h1 h2 h3
    simp [Bot.rebuild_path, h1, h2, h3]

/-- Navmesh oracle that resolves both points but fails every path build. -/
def navBuildFails : NavEnv := ⟨some 0, some 1, fun _ _ => none⟩

/-- Navmesh oracle that fails the first point resolution. -/
def navNoFrom : NavEnv := ⟨none, some 1, fun _ _ => some []⟩

/-- Bot part-way along a five-waypoint path. -/
def pathedBotState : BotState :=
  { Bot.defaultState with
    path := [⟨0, 0, 0⟩, ⟨1, 0, 0⟩, ⟨2, 0, 0⟩, ⟨3, 0, 0⟩, ⟨4, 0, 0⟩]
    current_path_point := 3 }

/-- C6 counterexample to the claim as stated: when both navmesh points
resolve but the path-build query fails, the path is left unchanged but
the path-follow cursor is **not** — it is reset from 3 to 0. -/
theorem bot_rebuild_path_counterexample :
    (Bot.rebuild_path pathedBotState navBuildFails 5).1.current_path_point = 0 ∧
    pathedBotState.current_path_point = 3 ∧
    (Bot.rebuild_path pathedBotState navBuildFails 5).1.path = pathedBotState.path := by
  refine ⟨?_, rfl, ?_⟩ <;> rfl

/-- Witness for `bot_rebuild_path_failure`: a failed point resolution
changes nothing, and a failed build leaves the rebuild timestamp alone. -/
theorem bot_rebuild_path_failure_witness :
    Bot.rebuild_path Bot.defaultState navNoFrom 2 = (Bot.defaultState, 1) ∧
    (Bot.rebuild_path pathedBotState navBuildFails 5).1.last_path_rebuild_time =
      pathedBotState.last_path_rebuild_time :=
  ⟨(bot_rebuild_path_failure Bot.defaultState navNoFrom 2).1 rfl,
   ((bot_rebuild_path_failure pathedBotState navBuildFails 5).2.2 0 1 rfl rfl rfl).2.1⟩

/-- Aim-lock cooldown remaining after a sequence of tick deltas, starting
from `r`: each live tick ends with `restoration_time -= delta`. -/
def Bot.restorationAfter (deltas : List ℚ) (r : ℚ) : ℚ :=
  deltas.foldl (fun acc d => acc - d) r

theorem Bot.restorationAfter_eq (deltas : List ℚ) (r : ℚ) :
    Bot.restorationAfter deltas r = r - deltas.sum := by
  induction deltas generalizing r with
  | nil => simp [Bot.restorationAfter]
  | cons d rest ih =>
    have h1 : Bot.restorationAfter (d :: rest) r = Bot.restorationAfter rest (r - d) := rfl
    rw [h1, ih, List.sum_cons]
    ring

theorem Bot.react_restoration (s : BotState) :
    (Bot.damageReact s).restoration_time =
      if s.character.health < s.last_health then 0.8 else s.restoration_time := by
  unfold Bot.damageReact
  split_ifs <;> rfl

/-- C4: a bot at health 100 with armor 0 taking 30 damage ends at health
70; on any tick with health below the previous tick's health the
hit-reaction clip is rewound to its start if it had finished and the
aim-lock cooldown is set to 0.8 regardless of the delta's magnitude; the
tick always ends by subtracting the tick delta from the cooldown (0.8 on
a damage tick, the running value otherwise); and aiming
(`restoration_time ≤ 0`) unlocks exactly once the accumulated tick
deltas since the damage reach 0.8. -/
theorem bot_damage_reaction_spec (sh sb : Nat) (s : BotState) (env : TickEnv) :
    (Character.damage ⟨100, 0, [], 0⟩ 30).health = 70 ∧
    (s.character.health < s.last_health →
      (Bot.damageReact s).restoration_time = 0.8 ∧
      Bot.canAimQ (Bot.damageReact s).restoration_time = false ∧
      (s.hit_reaction.has_ended = true → (Bot.damageReact s).hit_reaction = ⟨0, false⟩)) ∧
    (¬ s.character.health < s.last_health →
      (Bot.updateAlive sh sb s env).state.restoration_time =
        s.restoration_time - env.time.delta) ∧
    (s.character.health < s.last_health →
      (Bot.updateAlive sh sb s env).state.restoration_time = 0.8 - env.time.delta) ∧
    (∀ deltas : List ℚ,
      Bot.canAimQ (Bot.restorationAfter deltas 0.8) = true ↔ 0.8 ≤ deltas.sum) := by
  refine ⟨by norm_num [Character.damage], ?_, ?_, ?_, ?_⟩
  · intro h
    refine ⟨(Bot.react_damaged s h).1, ?_, (Bot.react_damaged s h).2.1⟩
    rw [(Bot.react_damaged s h).1]
    simp [Bot.canAimQ]
    norm_num
  · intro h
    unfold Bot.updateAlive
    dsimp only
    rw [Bot.gate_restoration, Bot.react_no_damage]
    · simp only [Bot.move_restoration, Bot.follow_restoration, Bot.poi_restoration]
    · simp only [Bot.move_character, Bot.follow_character, Bot.poi_character,
        Bot.move_last_health, Bot.follow_last_health, Bot.poi_last_health]
      rw [Bot.select_weapon_health]
      exact h
  · intro h
    unfold Bot.updateAlive
    dsimp only
    rw [Bot.gate_restoration, Bot.react_restoration]
    rw [if_pos]
    simp only [Bot.move_character, Bot.follow_character, Bot.poi_character,
      Bot.move_last_health, Bot.follow_last_health, Bot.poi_last_health]
    rw [Bot.select_weapon_health]
    exact h
  · intro deltas
    rw [Bot.restorationAfter_eq]
    simp only [Bot.canAimQ, decide_eq_true_eq]
    constructor <;> intro h <;> linarith

/-- Bot on the tick after dropping from health 100 to 70, with a finished
hit-reaction clip. -/
def damagedBotState : BotState :=
  { Bot.defaultState with
    character := { Character.default with health := 70 }
    last_health := 100
    hit_reaction := ⟨3, true⟩ }

/-- Witness for `bot_damage_reaction_spec`: on the 100 → 70 damage tick
the cooldown becomes 0.8, aiming locks, the finished clip is rewound, and
aiming unlocks only after the deltas sum to at least 0.8. -/
theorem bot_damage_reaction_spec_witness :
    (Character.damage ⟨100, 0, [], 0⟩ 30).health = 70 ∧
    ((70 : ℚ) < 100 ∧
      (Bot.damageReact damagedBotState).restoration_time = 0.8 ∧
      Bot.canAimQ (Bot.damageReact damagedBotState).restoration_time = false ∧
      (Bot.damageReact damagedBotState).hit_reaction = ⟨0, false⟩) ∧
    (Bot.canAimQ (Bot.restorationAfter [0.5, 0.4] 0.8) = true ↔
      (0.8 : ℚ) ≤ ([0.5, 0.4] : List ℚ).sum) := by
  have hlt : damagedBotState.character.health < damagedBotState.last_health := by decide
  have h := bot_damage_reaction_spec 0 0 damagedBotState envTrivial
  exact ⟨h.1,
    ⟨by decide, (h.2.1 hlt).1, (h.2.1 hlt).2.1, (h.2.1 hlt).2.2 rfl⟩,
    h.2.2.2.2 [0.5, 0.4]⟩

/-! Preservation of the path-cursor invariant by each mutating operation. -/

theorem Bot.pathInv_follow (s : BotState) (p : V3) (h : Bot.pathInv s) :
    Bot.pathInv (Bot.path_follow s p) := by
  unfold Bot.path_follow
  cases hg : s.path.get? s.current_path_point with
  | none => exact h
  | some pt =>
    have hlt : s.current_path_point < s.path.length := by
      rcases List.get?_eq_some.mp hg with ⟨h', _⟩
      exact h'
    dsimp only
    split_ifs with hc
    · right
      dsimp only
      omega
    · exact h

theorem Bot.pathInv_rebuild (s : BotState) (nav : NavEnv) (e : ℚ) (h : Bot.pathInv s) :
    Bot.pathInv (Bot.rebuild_path s nav e).1 := by
  unfold Bot.rebuild_path
  cases nav.query_closest_from with
  | none => exact h
  | some i =>
    cases nav.query_closest_poi with
    | none => exact h
    | some j =>
      dsimp only
      cases hb : nav.build_path i j with
      | none =>
        rcases h with h | h
        · exact Or.inl h
        · exact Or.inr (Nat.lt_of_le_of_lt (Nat.zero_le _) h)
      | some wps =>
        cases hw : wps.reverse with
        | nil => exact Or.inl (by simp [hw])
        | cons a rest => exact Or.inr (by simp [hw])

theorem Bot.pathInv_gate (s : BotState) (nm : Option NavEnv) (e : ℚ) (h : Bot.pathInv s) :
    Bot.pathInv (Bot.rebuildGate s nm e).1 := by
  unfold Bot.rebuildGate
  split_ifs
  · cases nm with
    | none => exact h
    | some nav => exact Bot.pathInv_rebuild s nav e h
  · exact h

theorem Bot.pathInv_poi (s : BotState) (items : List Item) (p : V3) (e : ℚ)
    (h : Bot.pathInv s) : Bot.pathInv (Bot.select_point_of_interest s items p e) := by
  unfold Bot.pathInv at h ⊢
  rw [Bot.poi_path, Bot.poi_cursor]
  exact h

theorem Bot.pathInv_move (s : BotState) (p : V3) (g c : Bool) (d : V3)
    (h : Bot.pathInv s) : Bot.pathInv (Bot.movementPhase s p g c d) := by
  unfold Bot.pathInv at h ⊢
  rw [Bot.move_path, Bot.move_cursor]
  exact h

theorem Bot.pathInv_react (s : BotState) (h : Bot.pathInv s) :
    Bot.pathInv (Bot.damageReact s) := by
  unfold Bot.pathInv at h ⊢
  rw [Bot.react_path, Bot.react_cursor]
  exact h

theorem Bot.pathInv_updateAlive (sh sb : Nat) (s : BotState) (env : TickEnv)
    (h : Bot.pathInv s) : Bot.pathInv (Bot.updateAlive sh sb s env).state := by
  unfold Bot.updateAlive
  dsimp only
  exact Bot.pathInv_gate _ _ _
    (Bot.pathInv_react _
      (Bot.pathInv_move _ _ _ _ _
        (Bot.pathInv_follow _ _
          (Bot.pathInv_poi _ _ _ _ h))))

/-- C5: in every reachable bot state the path-follow cursor is within the
path's bounds or the path is empty; the cursor never advances on a tick
with an empty path; and it advances exactly when the current waypoint is
reached (`distance ≤ 2`, i.e. squared distance ≤ 4) and is not the last
one. -/
theorem bot_path_cursor_spec :
    (∀ s, Bot.Reach s → Bot.pathInv s) ∧
    (∀ s p, s.path = [] → Bot.path_follow s p = s) ∧
    (∀ s p, (Bot.path_follow s p).current_path_point ≠ s.current_path_point →
      ∃ pt, s.path.get? s.current_path_point = some pt ∧
        V3.sqr_distance pt p ≤ 4 ∧ s.current_path_point < s.path.length - 1 ∧
        (Bot.path_follow s p).current_path_point = s.current_path_point + 1) := by
  refine ⟨?_, ?_, ?_⟩
  · intro s hr
    induction hr with
    | dflt => exact Or.inl rfl
    | spawn health => exact Or.inl rfl
    | tick sh sb env hs ih =>
      unfold Bot.update
      split_ifs with hd
      · exact ih
      · exact Bot.pathInv_updateAlive sh sb _ env ih
    | setPoi p t hs ih => exact ih
    | removeActor hdl hs ih => exact ih
  · intro s p h
    simp [Bot.path_follow, h]
  · intro s p h
    unfold Bot.path_follow at h ⊢
    cases hg : s.path.get? s.current_path_point with
    | none =>
      rw [hg] at h
      dsimp only at h
      exact absurd rfl h
    | some pt =>
      rw [hg] at h
      dsimp only at h ⊢
      split_ifs at h ⊢ with hc
      · exact ⟨pt, rfl, hc.1, hc.2, rfl⟩
      · exact absurd rfl h

/-- Witness for `bot_path_cursor_spec`: the default bot state is reachable
and satisfies the invariant, and path-following on its empty path is the
identity. -/
theorem bot_path_cursor_spec_witness :
    Bot.pathInv Bot.defaultState ∧
    Bot.path_follow Bot.defaultState V3.zero = Bot.defaultState :=
  ⟨bot_path_cursor_spec.1 Bot.defaultState Bot.Reach.dflt,
   bot_path_cursor_spec.2.1 Bot.defaultState V3.zero rfl⟩

/-! Shape of the messages each emission site can produce. -/

theorem Bot.whipDrain_mem (target : Option Target) (icc : Bool) (events : List Nat)
    (m : Msg) (h : m ∈ Bot.whipDrain target icc events) :
    icc = true ∧ ∃ t, target = some t ∧ m = Msg.damageActor t.handle 20 := by
  cases target with
  | none => simp [Bot.whipDrain] at h
  | some t =>
    unfold Bot.whipDrain at h
    rw [List.mem_filterMap] at h
    rcases h with ⟨sid, _, heq⟩
    by_cases hc : sid = CombatMachine.HIT_SIGNAL ∧ icc = true
    · rw [if_pos hc] at heq
      cases heq
      exact ⟨hc.2, t, rfl, rfl⟩
    · rw [if_neg hc] at heq
      cases heq

theorem Bot.stepDrain_mem (loco : LocomotionMachine) (g : Bool) (pos : V3)
    (events : List Nat) (m : Msg) (h : m ∈ Bot.stepDrain loco g pos events) :
    loco.is_walking = true ∧ g = true ∧ m = Msg.playSound pos := by
  unfold Bot.stepDrain at h
  by_cases hw : loco.is_walking = true
  · rw [if_pos hw] at h
    rw [List.mem_filterMap] at h
    rcases h with ⟨sid, _, heq⟩
    by_cases hc : sid = LocomotionMachine.STEP_SIGNAL ∧ g = true
    · rw [if_pos hc] at heq
      cases heq
      exact ⟨hw, hc.2, rfl⟩
    · rw [if_neg hc] at heq
      cases heq
  · rw [if_neg hw] at h
    exact absurd h (List.not_mem_nil m)

theorem Bot.shootMsgs_mem (icc canAim canShoot : Bool) (target : Option Target)
    (weapons : List Nat) (current : Nat) (d : V3) (m : Msg)
    (h : m ∈ Bot.shootMsgs icc canAim canShoot target weapons current d) :
    ∃ w, m = Msg.shootWeapon w d := by
  unfold Bot.shootMsgs at h
  split_ifs at h with hc
  · cases hw : weapons.get? current with
    | none =>
      rw [hw] at h
      exact absurd h (List.not_mem_nil m)
    | some w =>
      rw [hw] at h
      rcases List.mem_singleton.mp h with rfl
      exact ⟨w, rfl⟩
  · exact absurd h (List.not_mem_nil m)

theorem Character.set_weapon_msgs (c : Character) (i : Nat) (m : Msg)
    (h : m ∈ (Character.set_current_weapon c i).2) : ∃ w b, m = Msg.showWeapon w b := by
  unfold Character.set_current_weapon at h
  split_ifs at h with hlen
  · dsimp only at h
    rcases List.mem_append.mp h with h1 | h1
    · cases hw : c.weapons.get? c.current_weapon with
      | none =>
        rw [hw] at h1
        exact absurd h1 (List.not_mem_nil m)
      | some w =>
        rw [hw] at h1
        rcases List.mem_singleton.mp h1 with rfl
        exact ⟨w, false, rfl⟩
    · cases hw : c.weapons.get? i with
      | none =>
        rw [hw] at h1
        exact absurd h1 (List.not_mem_nil m)
      | some w =>
        rw [hw] at h1
        rcases List.mem_singleton.mp h1 with rfl
        exact ⟨w, true, rfl⟩
  · exact absurd h (List.not_mem_nil m)

theorem Bot.select_weapon_msgs (c : Character) (ammo : Nat → Nat) (m : Msg)
    (h : m ∈ (Bot.select_weapon c ammo).2) : ∃ w b, m = Msg.showWeapon w b := by
  unfold Bot.select_weapon at h
  cases hg : c.weapons.get? c.current_weapon with
  | none =>
    rw [hg] at h
    exact absurd h (List.not_mem_nil m)
  | some w =>
    rw [hg] at h
    dsimp only at h
    split_ifs at h with ha
    · cases hf : c.weapons.findIdx? (fun hdl => decide (0 < ammo hdl)) with
      | none =>
        rw [hf] at h
        exact absurd h (List.not_mem_nil m)
      | some i =>
        rw [hf] at h
        exact Character.set_weapon_msgs c i m h
    · exact absurd h (List.not_mem_nil m)

/-- C3: in `Bot::update`, a footstep sound is emitted only when the
locomotion machine is walking (in Walk or transitioning into Walk) and
the bot has ground contact at the moment the step events are drained; and
a melee damage message carries the fixed amount 20, targets the current
target, and is emitted only while the computed close-combat flag holds at
the moment the whip impact events are drained. -/
theorem bot_event_gating (sh sb : Nat) (s : BotState) (env : TickEnv) :
    (∀ p, Msg.playSound p ∈ (Bot.updateAlive sh sb s env).msgs →
      env.locomotion.is_walking = true ∧ env.has_ground_contact = true) ∧
    (∀ a amt, Msg.damageActor a amt ∈ (Bot.updateAlive sh sb s env).msgs →
      amt = 20 ∧
      (Bot.inCloseCombatLookDir (Bot.updateAlive sh sb s env).state.target
        (Bot.updateAlive sh sb s env).state.point_of_interest env.position).1 = true ∧
      ∃ t, (Bot.updateAlive sh sb s env).state.target = some t ∧ a = t.handle) := by
  constructor
  · intro p hp
    unfold Bot.updateAlive at hp
    dsimp only at hp
    simp only [List.mem_append] at hp
    rcases hp with ((h1 | h2) | h3) | h4
    · rcases Bot.select_weapon_msgs _ _ _ h1 with ⟨w, b, hw⟩
      simp at hw
    · rcases Bot.shootMsgs_mem _ _ _ _ _ _ _ _ h2 with ⟨w, hw⟩
      simp at hw
    · rcases Bot.whipDrain_mem _ _ _ _ h3 with ⟨_, t, _, hm⟩
      simp at hm
    · exact ⟨(Bot.stepDrain_mem _ _ _ _ _ h4).1, (Bot.stepDrain_mem _ _ _ _ _ h4).2.1⟩
  · intro a amt hp
    unfold Bot.updateAlive at hp ⊢
    dsimp only at hp ⊢
    simp only [List.mem_append] at hp
    rcases hp with ((h1 | h2) | h3) | h4
    · rcases Bot.select_weapon_msgs _ _ _ h1 with ⟨w, b, hw⟩
      simp at hw
    · rcases Bot.shootMsgs_mem _ _ _ _ _ _ _ _ h2 with ⟨w, hw⟩
      simp at hw
    · rcases Bot.whipDrain_mem _ _ _ _ h3 with ⟨hicc, t, htgt, hm⟩
      injection hm with ha hamt
      simp only [Bot.gate_target, Bot.gate_poi, Bot.react_target, Bot.react_poi,
        Bot.move_target_eq, Bot.move_poi, Bot.follow_target, Bot.follow_poi,
        Bot.poi_target] at hicc htgt ⊢
      exact ⟨hamt, hicc, t, htgt, ha⟩
    · rcases Bot.stepDrain_mem _ _ _ _ _ h4 with ⟨_, _, hm⟩
      simp at hm

theorem V3.sub_def (a b : V3) : a - b = V3.sub a b := rfl

/-- Tick oracle for the C3 witness: walking locomotion, ground contact, a
close opponent in clear sight, and one pending whip and one pending step
event. -/
def envCombat : TickEnv :=
  { time := ⟨0, 0⟩
    position := V3.zero
    has_ground_contact := true
    targets := [⟨7, ⟨1, 0, 0⟩⟩]
    select := envClearSight
    items := []
    ammo := fun _ => 0
    navmesh := none
    whip_events := [1]
    step_events := [1]
    locomotion := ⟨⟨5, none, fun _ => 0⟩, 5⟩
    combat_active_is_aim := false }

/-- Witness for `bot_event_gating`: on a walking, grounded, close-combat
tick both a footstep sound and a 20-damage melee message are emitted, and
the theorem's gating conclusions hold for them. -/
theorem bot_event_gating_witness :
    Msg.playSound V3.zero ∈ (Bot.updateAlive 0 0 Bot.defaultState envCombat).msgs ∧
    envCombat.locomotion.is_walking = true ∧ envCombat.has_ground_contact = true ∧
    Msg.damageActor 7 20 ∈ (Bot.updateAlive 0 0 Bot.defaultState envCombat).msgs ∧
    (Bot.inCloseCombatLookDir (Bot.updateAlive 0 0 Bot.defaultState envCombat).state.target
      (Bot.updateAlive 0 0 Bot.defaultState envCombat).state.point_of_interest
      envCombat.position).1 = true := by
  have hmsgs : (Bot.updateAlive 0 0 Bot.defaultState envCombat).msgs =
      [Msg.damageActor 7 20, Msg.playSound V3.zero] := by
    simp [Bot.updateAlive, Bot.select_point_of_interest, Bot.poiScan, Bot.path_follow,
      Bot.movementPhase, Bot.damageReact, Bot.canAimQ, Bot.select_weapon,
      Bot.inCloseCombatLookDir, Bot.select_target, Bot.selectTargetLoop, Bot.losRejected,
      Bot.hitLoop, Bot.shootMsgs, Bot.whipDrain, Bot.stepDrain, Bot.rebuildGate,
      Bot.rebuild_path, LocomotionMachine.is_walking, CombatMachine.HIT_SIGNAL,
      LocomotionMachine.STEP_SIGNAL, envCombat, envClearSight, Bot.defaultState,
      Character.default, V3.sqr_distance, V3.sqrLen, V3.sub, V3.zero, V3.sub_def,
      V3.normalizedOpt, F32_MAX, Character.set_current_weapon, Clip.rewind,
      List.filterMap_cons, List.filterMap_nil]
    try norm_num
  have hstep : Msg.playSound V3.zero ∈ (Bot.updateAlive 0 0 Bot.defaultState envCombat).msgs := by
    rw [hmsgs]
    simp
  have hdmg : Msg.damageActor 7 20 ∈ (Bot.updateAlive 0 0 Bot.defaultState envCombat).msgs := by
    rw [hmsgs]
    simp
  have h := bot_event_gating 0 0 Bot.defaultState envCombat
  exact ⟨hstep, (h.1 V3.zero hstep).1, (h.1 V3.zero hstep).2, hdmg, (h.2 7 20 hdmg).2.1⟩
